import Mathlib

/-!
Shallow embedding of `switchyard/llnetreal.py` (class `LLNetReal`): the
capture-aggregation engine's signal handler, shutdown procedure, per-device
capture worker, receive loop and send path, with theorems checking the
specification's claims against it.

Python exception raising is modelled with `Except`; the thread-shared queue
and the interleaving of pop results, flag observations and worker poll
results are modelled as explicit event lists, so each concurrent schedule is
one concrete input to the embedded functions.
-/

namespace Switchyard

/-- Link-layer encapsulation types (`Dlt` values from `pcapffi`); the source
uses `DLT_EN10MB` and `DLT_NULL` as decoder-table keys, every other value is
absent from the table. -/
inductive Dlt where
  | DLT_EN10MB : Dlt
  | DLT_NULL : Dlt
  | DLT_OTHER : Nat → Dlt
  deriving DecidableEq, Repr

/-- First-header tags used by the two decoders in `_dlt_to_decoder`. -/
inductive Header where
  | Ethernet : Header
  | Null : Header
  deriving DecidableEq, Repr

/-- A decoded `Packet` object: raw bytes plus the first-header tag the
decoder was constructed with (`Packet(raw, first_header=...)`). -/
structure Packet where
  raw : List Nat
  first_header : Header
  deriving DecidableEq, Repr

/-- Modelled from the spec: the packet codec's encode entry point
(`packet.to_bytes()`, whose body is outside this file) serializes a decoded
packet back to raw bytes. -/
def Packet.to_bytes (p : Packet) : List Nat := p.raw

/-- A raw capture record handed up by a pcap device: timestamp plus raw
bytes (`pktinfo.timestamp`, `pktinfo.raw`). -/
structure RawCapture where
  timestamp : Int
  raw : List Nat
  deriving DecidableEq, Repr

/-- One entry of the shared packet queue: the `(devname, dlt, pktinfo)`
triple pushed by `__low_level_dispatch`, or the `(None, None, None)`
sentinel pushed by `_sig_handler`. -/
structure QueueEntry where
  dev : Option String
  dlt : Option Dlt
  pktinfo : Option RawCapture
  deriving DecidableEq, Repr

/-- The sentinel entry `(None, None, None)` that `_sig_handler` pushes to
unblock a consumer stuck in a queue pop. -/
def sentinel : QueueEntry := ⟨none, none, none⟩

/-- Minimal `Interface` record: the send path uses only the name and the
interface number. -/
structure Interface where
  name : String
  ifnum : Nat
  deriving DecidableEq, Repr

/-- The named tuple `ReceivedPacket(timestamp, ingress_dev, packet)`
returned by `recv_packet`. -/
structure ReceivedPacket where
  timestamp : Int
  ingress_dev : Option String
  packet : Packet
  deriving DecidableEq, Repr

/-- The Python exceptions visible in `llnetreal.py`: the single class
`SwitchyException` (carrying only a message string) raised by the send
path, the distinct classes `Shutdown` and `NoPackets` raised by
`recv_packet`, and the interpreter's `AttributeError` for an attribute
access on `None`. -/
inductive PyExc where
  | SwitchyException : String → PyExc
  | Shutdown : PyExc
  | NoPackets : PyExc
  | AttributeError : PyExc
  deriving DecidableEq, Repr

/-- The Python exception class name of a raised exception; two exceptions
are the same "kind" for a caller's `except` clause exactly when their class
names agree. -/
def PyExc.className : PyExc → String
  | .SwitchyException _ => "SwitchyException"
  | .Shutdown => "Shutdown"
  | .NoPackets => "NoPackets"
  | .AttributeError => "AttributeError"

/-- Process signals: the five the constructor registers `_sig_handler` for,
and everything else. -/
inductive Signal where
  | SIGINT : Signal
  | SIGTERM : Signal
  | SIGHUP : Signal
  | SIGUSR1 : Signal
  | SIGUSR2 : Signal
  | other : Nat → Signal
  deriving DecidableEq, Repr

/-- The signals `LLNetReal.__init__` registers `_sig_handler` for. -/
def registered_signals : List Signal :=
  [Signal.SIGINT, Signal.SIGTERM, Signal.SIGHUP, Signal.SIGUSR1, Signal.SIGUSR2]

/-- The mutable state of an `LLNetReal` object: the class-wide `running`
flag, the shared packet queue, the receiver threads (by device name) and
the open pcap device handles (`_pcaps` keys), plus `_devinfo` for device
lookup by interface number. -/
structure NetState where
  running : Bool
  pktqueue : List QueueEntry
  threads : List String
  pcaps : List String
  devinfo : List Interface
  deriving DecidableEq, Repr

/-- `_dlt_to_decoder`: the fixed decoder table, populated once at module
load with exactly the `DLT_EN10MB` and `DLT_NULL` entries. -/
def dlt_to_decoder : Dlt → Option (List Nat → Packet)
  | .DLT_EN10MB => some (fun raw => ⟨raw, Header.Ethernet⟩)
  | .DLT_NULL => some (fun raw => ⟨raw, Header.Null⟩)
  | .DLT_OTHER _ => none

/-- `_dlt_to_decoder.get(dlt, None)` where the popped `dlt` field may be
`None` (the sentinel's is): `None` is never a key of the table. -/
def decoder_for : Option Dlt → Option (List Nat → Packet)
  | none => none
  | some d => dlt_to_decoder d

/-- `LLNetReal._sig_handler(signum, stack)`: only for `SIGINT` it sets the
running flag false and, when the queue size is observed zero, pushes the
sentinel; for every other signal (registered or not) the body is a no-op. -/
def sig_handler (signum : Signal) (s : NetState) : NetState :=
  if signum = Signal.SIGINT then
    if s.pktqueue.length = 0 then
      { s with running := false, pktqueue := s.pktqueue ++ [sentinel] }
    else { s with running := false }
  else s

/-- Observable actions of the façade's shutdown path and of a capture
worker: flipping the flag, joining a thread, closing a pcap handle,
polling a device, pushing a queue entry, retrieving final statistics. -/
inductive Event where
  | setRunningFalse : Event
  | join : String → Event
  | close : String → Event
  | recvPoll : Event
  | put : QueueEntry → Event
  | stats : String → Event
  deriving DecidableEq, Repr

/-- `LLNetReal.shutdown()`: if the running flag is already false, return at
once; otherwise set it false, join every receiver thread, then close every
pcap device handle. Returns the new state together with the ordered list of
actions performed. -/
def shutdown (s : NetState) : NetState × List Event :=
  if s.running then
    ({ s with running := false },
      Event.setRunningFalse ::
        (s.threads.map Event.join ++ s.pcaps.map Event.close))
  else (s, [])

/-- `LLNetReal.__low_level_dispatch(pcapdev, devname, pktqueue)`: the worker
loop. Each element of the schedule is one loop iteration's observation of
the running flag paired with the result of `pcapdev.recv_packet(timeout=0.2)`;
on a flag observed false the loop exits and the worker retrieves final
statistics. An exhausted schedule means the worker is still looping. -/
def low_level_dispatch (dlt : Dlt) (devname : String) :
    List (Bool × Option RawCapture) → List Event
  | [] => []
  | (false, _) :: _ => [Event.stats devname]
  | (true, none) :: rest => Event.recvPoll :: low_level_dispatch dlt devname rest
  | (true, some pi) :: rest =>
      Event.recvPoll :: Event.put ⟨some devname, some dlt, some pi⟩ ::
        low_level_dispatch dlt devname rest

/-- One observed outcome of `self._pktqueue.get(timeout=timeout)` inside
`recv_packet`, paired with the value of the running flag at the check that
immediately follows it: either the pop raised `Empty`, or it yielded a
queue entry. -/
inductive PopEvent where
  | timeout : Bool → PopEvent
  | entry : QueueEntry → Bool → PopEvent
  deriving DecidableEq, Repr

/-- `LLNetReal.recv_packet(timeout)`: the consumer loop, driven by the
sequence of pop outcomes it observes. A timed-out pop raises `Shutdown`
when the flag is false, else `NoPackets`; a popped entry with the flag
false breaks out of the loop and raises `Shutdown`; an entry whose `dlt`
has no decoder is skipped and the loop pops again; otherwise the entry is
decoded and returned. `none` means the loop is still waiting for a pop
outcome. -/
def recv_packet : List PopEvent → Option (Except PyExc ReceivedPacket)
  | [] => none
  | PopEvent.timeout r :: _ =>
      if r then some (Except.error PyExc.NoPackets)
      else some (Except.error PyExc.Shutdown)
  | PopEvent.entry e r :: rest =>
      if r then
        match decoder_for e.dlt with
        | none => recv_packet rest
        | some dec =>
          match e.pktinfo with
          | some pi =>
              some (Except.ok ⟨pi.timestamp, e.dev, dec pi.raw⟩)
          | none => some (Except.error PyExc.AttributeError)
      else some (Except.error PyExc.Shutdown)

/-- Modelled from the spec: `LLNetBase._lookup_devname` (defined in
`llnetbase.py`, outside this file) resolves an interface number to the
canonical device name; per the unit tests it raises `SwitchyException`
when no interface has that number. Here it returns the name when found. -/
def lookup_devname (devinfo : List Interface) (n : Nat) : Option String :=
  (devinfo.find? (fun i => i.ifnum = n)).map Interface.name

/-- A device reference accepted by `send_packet`: a device name string, an
interface number, or an `Interface` object. -/
inductive DevRef where
  | byName : String → DevRef
  | byIdx : Nat → DevRef
  | byIntf : Interface → DevRef
  deriving DecidableEq, Repr

/-- The two leading `isinstance` normalisations of `send_packet`: an `int`
goes through `_lookup_devname`, an `Interface` is replaced by its name. -/
def resolve_dev (devinfo : List Interface) : DevRef → Option String
  | .byName s => some s
  | .byIdx n => lookup_devname devinfo n
  | .byIntf i => some i.name

/-- A Python value handed to `send_packet` as its `packet` argument (when
not `None`): either an actual `Packet` object or a value of some other
type, carried with its type name for the error message. -/
inductive PyVal where
  | Pkt : Packet → PyVal
  | NonPacket : String → PyVal
  deriving DecidableEq, Repr

/-- Message of the `SwitchyException` raised for an unrecognized device. -/
def unrecognized_device_msg (d : String) : String :=
  "Unrecognized device name for packet send: " ++ d

/-- Message of the `SwitchyException` raised when `packet is None`. -/
def no_packet_msg : String := "No packet object given to send_packet"

/-- Message of the `SwitchyException` raised when the packet argument is
not a `Packet` instance. -/
def not_a_packet_msg (t : String) : String :=
  "Object given to send_packet is not a Packet (it is: " ++ t ++ ")"

/-- Modelled from the spec for the unfound case only: the message of the
`SwitchyException` that `_lookup_devname` raises for an unknown interface
number. -/
def no_such_ifnum_msg : String := "No device has that ifnum"

/-- `LLNetReal.send_packet(dev, packet)`: normalise the device reference,
look the name up in `_pcaps`; an unrecognized name raises
`SwitchyException`; otherwise `packet is None` and non-`Packet` arguments
each raise `SwitchyException`, and a real packet is serialized and sent.
Success yields the device name and the raw bytes handed to the handle. -/
def send_packet (st : NetState) (dev : DevRef) (packet : Option PyVal) :
    Except PyExc (String × List Nat) :=
  match resolve_dev st.devinfo dev with
  | none => Except.error (PyExc.SwitchyException no_such_ifnum_msg)
  | some d =>
    if st.pcaps.contains d then
      match packet with
      | none => Except.error (PyExc.SwitchyException no_packet_msg)
      | some (PyVal.NonPacket t) =>
          Except.error (PyExc.SwitchyException (not_a_packet_msg t))
      | some (PyVal.Pkt p) => Except.ok (d, p.to_bytes)
    else Except.error (PyExc.SwitchyException (unrecognized_device_msg d))

/-! ## Helper lemmas -/

/-- A run of the consumer loop that decided nothing on its first events
(every one was a skipped entry) continues into the remaining events. -/
theorem recv_packet_append (evs more : List PopEvent) (h : recv_packet evs = none) :
    recv_packet (evs ++ more) = recv_packet more := by
  induction evs with
  | nil => rfl
  | cons ev rest ih =>
    cases ev with
    | timeout r => cases r <;> simp [recv_packet] at h
    | entry e r =>
      cases r with
      | false => simp [recv_packet] at h
      | true =>
        simp only [List.cons_append, recv_packet, if_true] at h ⊢
        cases hd : decoder_for e.dlt with
        | none =>
          simp only [hd] at h ⊢
          exact ih h
        | some dec =>
          cases hp : e.pktinfo with
          | none => simp [hd, hp] at h
          | some pi => simp [hd, hp] at h

/-- The signal handler invoked with `SIGINT` leaves the running flag false,
whatever the queue contents. -/
theorem sig_handler_sigint_running (s : NetState) :
    (sig_handler Signal.SIGINT s).running = false := by
  simp [sig_handler, apply_ite NetState.running]

/-- Unfolding of `shutdown` on a state whose running flag is true. -/
theorem shutdown_of_running (s : NetState) (h : s.running = true) :
    shutdown s = ({ s with running := false },
      Event.setRunningFalse ::
        (s.threads.map Event.join ++ s.pcaps.map Event.close)) := by
  simp [shutdown, h]

/-- Unfolding of `shutdown` on a state whose running flag is false. -/
theorem shutdown_of_not_running (s : NetState) (h : s.running = false) :
    shutdown s = (s, []) := by
  simp [shutdown, h]

/-- String append acts on the underlying character lists. -/
theorem string_data_append (a b : String) : (a ++ b).data = a.data ++ b.data := rfl

/-- A capture worker never closes a pcap device handle: its event stream
holds only polls, queue pushes and the final statistics retrieval. -/
theorem close_not_in_dispatch (dlt : Dlt) (dev : String)
    (sched : List (Bool × Option RawCapture)) (d : String) :
    Event.close d ∉ low_level_dispatch dlt dev sched := by
  induction sched with
  | nil => simp [low_level_dispatch]
  | cons it rest ih =>
    obtain ⟨b, pkt⟩ := it
    cases b
    · simp [low_level_dispatch]
    · cases pkt with
      | none => simp [low_level_dispatch, ih]
      | some pi => simp [low_level_dispatch, ih]

/-- Every packet the consumer loop returns was decoded from a queue entry
whose link type had a registered decoder. -/
theorem recv_ok_provenance (evs : List PopEvent) (rp : ReceivedPacket)
    (h : recv_packet evs = some (Except.ok rp)) :
    ∃ e r pi dec, PopEvent.entry e r ∈ evs ∧ decoder_for e.dlt = some dec ∧
      e.pktinfo = some pi ∧ rp = ⟨pi.timestamp, e.dev, dec pi.raw⟩ := by
  induction evs with
  | nil => simp [recv_packet] at h
  | cons ev rest ih =>
    cases ev with
    | timeout r => cases r <;> simp [recv_packet] at h
    | entry e r =>
      cases r with
      | false => simp [recv_packet] at h
      | true =>
        simp only [recv_packet, if_true] at h
        cases hd : decoder_for e.dlt with
        | none =>
          simp only [hd] at h
          obtain ⟨e2, r2, pi, dec, hmem, h1, h2, h3⟩ := ih h
          exact ⟨e2, r2, pi, dec, List.mem_cons_of_mem _ hmem, h1, h2, h3⟩
        | some dec =>
          cases hp : e.pktinfo with
          | none => simp [hd, hp] at h
          | some pi =>
            simp only [hd, hp, Option.some.injEq, Except.ok.injEq] at h
            exact ⟨e, true, pi, dec, List.mem_cons_self _ _, hd, hp, h.symm⟩

/-! ## Claim theorems -/

/-- C1: whenever the queue pop inside `recv_packet` times out (raises
`Empty`), the call raises `Shutdown` if the running flag is false at the
following check and `NoPackets` otherwise; since `recv_packet` is a
function of the observed pop outcomes, these are the only two possible
results of a timed-out pop, no matter how many entries the loop skipped
beforehand. -/
theorem recv_timeout_outcomes (evs rest : List PopEvent) (r : Bool)
    (h : recv_packet evs = none) :
    recv_packet (evs ++ PopEvent.timeout r :: rest) =
      some (Except.error (if r then PyExc.NoPackets else PyExc.Shutdown)) := by
  rw [recv_packet_append _ _ h]
  cases r <;> rfl

/-- Witness for C1: a run whose first pop times out with the flag false
raises `Shutdown`. -/
theorem recv_timeout_outcomes_witness :
    recv_packet [PopEvent.timeout false] = some (Except.error PyExc.Shutdown) :=
  recv_timeout_outcomes [] [] false rfl

/-- C9: any entry popped while the running flag is false — sentinel or real
captured packet alike — makes `recv_packet` raise `Shutdown`; the entry is
discarded, never decoded, never returned. -/
theorem recv_entry_after_stop (evs rest : List PopEvent) (e : QueueEntry)
    (h : recv_packet evs = none) :
    recv_packet (evs ++ PopEvent.entry e false :: rest) =
      some (Except.error PyExc.Shutdown) := by
  rw [recv_packet_append _ _ h]
  rfl

/-- Witness for C9: a real Ethernet capture dequeued after the flag went
false is dropped and `Shutdown` is raised. -/
theorem recv_entry_after_stop_witness :
    recv_packet [PopEvent.entry ⟨some "eth0", some Dlt.DLT_EN10MB, some ⟨5, [1, 2]⟩⟩ false] =
      some (Except.error PyExc.Shutdown) :=
  recv_entry_after_stop [] [] ⟨some "eth0", some Dlt.DLT_EN10MB, some ⟨5, [1, 2]⟩⟩ rfl

/-- C5: popping the sentinel with the running flag false raises `Shutdown`;
with the flag true the sentinel's `None` link type has no decoder, so the
loop skips it and the result is exactly what the remaining pop outcomes
yield — in no flag state is the sentinel ever returned as a packet. -/
theorem recv_sentinel_shutdown (evs rest : List PopEvent) (r : Bool)
    (h : recv_packet evs = none) :
    recv_packet (evs ++ PopEvent.entry sentinel r :: rest) =
      if r then recv_packet rest else some (Except.error PyExc.Shutdown) := by
  rw [recv_packet_append _ _ h]
  cases r <;> rfl

/-- Witness for C5: the sentinel popped with the flag false raises
`Shutdown`. -/
theorem recv_sentinel_shutdown_witness :
    recv_packet [PopEvent.entry sentinel false] = some (Except.error PyExc.Shutdown) :=
  recv_sentinel_shutdown [] [] false rfl

/-- C6: an entry whose link type has no registered decoder is never
returned: while running, the loop logs a warning and pops again, so the
outcome is that of the remaining pop outcomes (if the flag is false the
loop instead exits with `Shutdown`, still without returning the entry);
moreover every successfully returned packet provably comes from some later
entry that did have a registered decoder. -/
theorem recv_skips_undecodable (evs rest : List PopEvent) (e : QueueEntry) (r : Bool)
    (h : recv_packet evs = none) (hd : decoder_for e.dlt = none) :
    (recv_packet (evs ++ PopEvent.entry e r :: rest) =
      if r then recv_packet rest else some (Except.error PyExc.Shutdown)) ∧
    (∀ rp, recv_packet (evs ++ PopEvent.entry e r :: rest) = some (Except.ok rp) →
      ∃ e2 r2 pi dec, PopEvent.entry e2 r2 ∈ rest ∧ decoder_for e2.dlt = some dec ∧
        e2.pktinfo = some pi ∧ rp = ⟨pi.timestamp, e2.dev, dec pi.raw⟩) := by
  have heq : recv_packet (evs ++ PopEvent.entry e r :: rest) =
      if r then recv_packet rest else some (Except.error PyExc.Shutdown) := by
    rw [recv_packet_append _ _ h]
    cases r with
    | false => rfl
    | true => simp [recv_packet, hd]
  refine ⟨heq, ?_⟩
  intro rp hrp
  rw [heq] at hrp
  cases r with
  | false => simp at hrp
  | true => exact recv_ok_provenance rest rp (by simpa using hrp)

/-- Witness for C6: an entry with unregistered link type followed by a
timed-out pop while running yields `NoPackets` — the bad entry was skipped,
not surfaced and not fatal. -/
theorem recv_skips_undecodable_witness :
    recv_packet [PopEvent.entry ⟨some "eth1", some (Dlt.DLT_OTHER 7), some ⟨3, [9]⟩⟩ true,
        PopEvent.timeout true] =
      some (Except.error PyExc.NoPackets) :=
  (recv_skips_undecodable [] [PopEvent.timeout true]
      ⟨some "eth1", some (Dlt.DLT_OTHER 7), some ⟨3, [9]⟩⟩ true rfl rfl).1.trans rfl

/-- C2 counterexample: the termination signal is in the registered set, yet
delivering it to a running object with an empty queue changes nothing — the
running flag stays true and no sentinel is injected, refuting the claim
that SIGTERM behaves like SIGINT. -/
theorem sigterm_counterexample :
    Signal.SIGTERM ∈ registered_signals ∧
    sig_handler Signal.SIGTERM ⟨true, [], [], [], []⟩ =
      (⟨true, [], [], [], []⟩ : NetState) := by
  exact ⟨by decide, rfl⟩

/-- C2 amended: only the interrupt signal has an effect. `SIGINT` sets the
running flag false and injects the sentinel exactly when the queue is
observed empty; every other registered signal (SIGTERM, SIGHUP, SIGUSR1,
SIGUSR2) reaches the handler but leaves the state untouched. -/
theorem sig_handler_only_sigint (s : NetState) :
    ((sig_handler Signal.SIGINT s).running = false ∧
     (s.pktqueue.length = 0 →
        (sig_handler Signal.SIGINT s).pktqueue = s.pktqueue ++ [sentinel]) ∧
     (s.pktqueue.length ≠ 0 →
        (sig_handler Signal.SIGINT s).pktqueue = s.pktqueue)) ∧
    (∀ sig, sig ∈ registered_signals → sig ≠ Signal.SIGINT →
      sig_handler sig s = s) := by
  refine ⟨⟨sig_handler_sigint_running s, ?_, ?_⟩, ?_⟩
  · intro h0
    simp [sig_handler, h0]
  · intro h0
    simp [sig_handler, h0]
  · intro sig _ hne
    simp [sig_handler, hne]

/-- Witness for C2 amended: on a concrete running state with an empty queue
SIGINT clears the flag, while SIGTERM is a no-op. -/
theorem sig_handler_only_sigint_witness :
    (sig_handler Signal.SIGINT ⟨true, [], ["t0"], ["eth0"], []⟩).running = false ∧
    sig_handler Signal.SIGTERM ⟨true, [], ["t0"], ["eth0"], []⟩ =
      (⟨true, [], ["t0"], ["eth0"], []⟩ : NetState) :=
  ⟨(sig_handler_only_sigint ⟨true, [], ["t0"], ["eth0"], []⟩).1.1,
   (sig_handler_only_sigint ⟨true, [], ["t0"], ["eth0"], []⟩).2
     Signal.SIGTERM (by decide) (by decide)⟩

/-- State with one open device used by the C3 theorems. -/
def netC3 : NetState := ⟨true, [], [], ["eth0"], [⟨"eth0", 0⟩]⟩

/-- C3 counterexample: with an unrecognized device name and `packet=None`,
`send_packet` raises the unrecognized-device `SwitchyException`, not the
no-packet one — device validity does change the outcome, refuting the
claim. -/
theorem send_device_checked_first_counterexample :
    send_packet netC3 (DevRef.byName "baddev") none =
      Except.error (PyExc.SwitchyException (unrecognized_device_msg "baddev")) ∧
    unrecognized_device_msg "baddev" ≠ no_packet_msg := by
  exact ⟨rfl, by decide⟩

/-- C3 amended: the device is checked first. For every device reference
that resolves to a name with an open handle, `packet=None` raises the
no-packet `SwitchyException` and a non-`Packet` value raises the
not-a-packet one; but when the resolved name has no handle, the
unrecognized-device `SwitchyException` is raised instead, whatever the
packet argument. -/
theorem send_packet_invalid_packet (st : NetState) (dev : DevRef) (d : String)
    (hres : resolve_dev st.devinfo dev = some d) :
    (st.pcaps.contains d = true →
      send_packet st dev none =
        Except.error (PyExc.SwitchyException no_packet_msg) ∧
      ∀ t, send_packet st dev (some (PyVal.NonPacket t)) =
        Except.error (PyExc.SwitchyException (not_a_packet_msg t))) ∧
    (st.pcaps.contains d = false →
      ∀ p, send_packet st dev p =
        Except.error (PyExc.SwitchyException (unrecognized_device_msg d))) := by
  constructor
  · intro hc
    refine ⟨?_, ?_⟩
    · simp only [send_packet, hres]
      rw [hc]
      rfl
    · intro t
      simp only [send_packet, hres]
      rw [hc]
      rfl
  · intro hc p
    simp only [send_packet, hres]
    rw [hc]
    rfl

/-- Witness for C3 amended: on the concrete state, a valid device with
`packet=None` gives the no-packet error, and an unknown device with a real
packet gives the unrecognized-device error. -/
theorem send_packet_invalid_packet_witness :
    send_packet netC3 (DevRef.byName "eth0") none =
      Except.error (PyExc.SwitchyException no_packet_msg) ∧
    send_packet netC3 (DevRef.byName "missing") (some (PyVal.Pkt ⟨[], Header.Ethernet⟩)) =
      Except.error (PyExc.SwitchyException (unrecognized_device_msg "missing")) :=
  ⟨((send_packet_invalid_packet netC3 (DevRef.byName "eth0") "eth0" rfl).1
      (by decide)).1,
   (send_packet_invalid_packet netC3 (DevRef.byName "missing") "missing" rfl).2
      (by decide) (some (PyVal.Pkt ⟨[], Header.Ethernet⟩))⟩

/-- State with one open device used by the C4 theorems. -/
def netC4 : NetState := ⟨true, [], [], ["eth0"], []⟩

/-- C4 counterexample: the unrecognized-device failure and the no-packet
failure are instances of the same exception class `SwitchyException` — a
caller's `except` clause cannot tell which misuse occurred by the error
kind, refuting the claimed distinctness. -/
theorem send_same_exception_class_counterexample :
    send_packet netC4 (DevRef.byName "baddev") (some (PyVal.Pkt ⟨[1], Header.Ethernet⟩)) =
      Except.error (PyExc.SwitchyException (unrecognized_device_msg "baddev")) ∧
    send_packet netC4 (DevRef.byName "eth0") none =
      Except.error (PyExc.SwitchyException no_packet_msg) ∧
    PyExc.className (PyExc.SwitchyException (unrecognized_device_msg "baddev")) =
      PyExc.className (PyExc.SwitchyException no_packet_msg) := by
  exact ⟨rfl, rfl, rfl⟩

/-- C4 amended: all three `send_packet` misuse failures raise the same
exception class `SwitchyException`; they are mutually distinguishable only
by their message text, which does differ between the unrecognized-device,
no-packet and not-a-packet cases. -/
theorem send_misuse_same_class (st : NetState) (dbad dgood : String) (p : Packet)
    (hb : st.pcaps.contains dbad = false) (hg : st.pcaps.contains dgood = true) :
    send_packet st (DevRef.byName dbad) (some (PyVal.Pkt p)) =
      Except.error (PyExc.SwitchyException (unrecognized_device_msg dbad)) ∧
    send_packet st (DevRef.byName dgood) none =
      Except.error (PyExc.SwitchyException no_packet_msg) ∧
    (∀ t, send_packet st (DevRef.byName dgood) (some (PyVal.NonPacket t)) =
      Except.error (PyExc.SwitchyException (not_a_packet_msg t))) ∧
    PyExc.className (PyExc.SwitchyException (unrecognized_device_msg dbad)) =
      PyExc.className (PyExc.SwitchyException no_packet_msg) ∧
    unrecognized_device_msg dbad ≠ no_packet_msg ∧
    (∀ t, unrecognized_device_msg dbad ≠ not_a_packet_msg t) ∧
    (∀ t, no_packet_msg ≠ not_a_packet_msg t) := by
  refine ⟨?_, ?_, ?_, rfl, ?_, ?_, ?_⟩
  · simp only [send_packet, resolve_dev]
    rw [hb]
    rfl
  · simp only [send_packet, resolve_dev]
    rw [hg]
    rfl
  · intro t
    simp only [send_packet, resolve_dev]
    rw [hg]
    rfl
  · intro h
    have h2 := congrArg (fun s => s.data.head?) h
    simp only [unrecognized_device_msg, no_packet_msg, string_data_append] at h2
    rw [List.head?_append] at h2
    simp at h2
  · intro t h
    have h2 := congrArg (fun s => s.data.head?) h
    simp only [unrecognized_device_msg, not_a_packet_msg, string_data_append] at h2
    rw [List.head?_append, List.head?_append] at h2
    simp at h2
  · intro t h
    have h2 := congrArg (fun s => s.data.head?) h
    simp only [no_packet_msg, not_a_packet_msg, string_data_append] at h2
    rw [List.head?_append] at h2
    simp at h2

/-- Witness for C4 amended: concrete instantiation on `netC4`. -/
theorem send_misuse_same_class_witness :
    send_packet netC4 (DevRef.byName "nodev") (some (PyVal.Pkt ⟨[], Header.Null⟩)) =
      Except.error (PyExc.SwitchyException (unrecognized_device_msg "nodev")) ∧
    send_packet netC4 (DevRef.byName "eth0") none =
      Except.error (PyExc.SwitchyException no_packet_msg) ∧
    PyExc.className (PyExc.SwitchyException (unrecognized_device_msg "nodev")) =
      PyExc.className (PyExc.SwitchyException no_packet_msg) ∧
    unrecognized_device_msg "nodev" ≠ no_packet_msg :=
  ⟨(send_misuse_same_class netC4 "nodev" "eth0" ⟨[], Header.Null⟩
      (by decide) (by decide)).1,
   (send_misuse_same_class netC4 "nodev" "eth0" ⟨[], Header.Null⟩
      (by decide) (by decide)).2.1,
   (send_misuse_same_class netC4 "nodev" "eth0" ⟨[], Header.Null⟩
      (by decide) (by decide)).2.2.2.1,
   (send_misuse_same_class netC4 "nodev" "eth0" ⟨[], Header.Null⟩
      (by decide) (by decide)).2.2.2.2.1⟩

/-- C7: `shutdown` is idempotent. After a first completed call on a running
object, a second call leaves the state unchanged and performs no action at
all, so across the two calls each open pcap device handle is closed exactly
once. -/
theorem shutdown_idempotent (s : NetState) (h : s.running = true)
    (hnd : s.pcaps.Nodup) :
    (shutdown (shutdown s).1).1 = (shutdown s).1 ∧
    (shutdown (shutdown s).1).2 = [] ∧
    ∀ d ∈ s.pcaps,
      ((shutdown s).2 ++ (shutdown (shutdown s).1).2).count (Event.close d) = 1 := by
  have h1 := shutdown_of_running s h
  have h2 : shutdown { s with running := false } =
      ({ s with running := false }, []) := shutdown_of_not_running _ rfl
  refine ⟨?_, ?_, ?_⟩
  · simp only [h1, h2]
  · simp only [h1, h2]
  · intro d hd
    have hj : (s.threads.map Event.join).count (Event.close d) = 0 := by
      rw [List.count_eq_zero]
      simp
    have hc2 : (s.pcaps.map Event.close).count (Event.close d) = s.pcaps.count d :=
      List.count_map_of_injective _ _ (fun a b hab => Event.close.inj hab) d
    have hcd : s.pcaps.count d = 1 := List.count_eq_one_of_mem hnd hd
    simp only [h1, h2, List.append_nil, List.count_cons, List.count_append,
      hj, hc2, hcd]
    simp

/-- Concrete running state used by the C7 witness. -/
def netC7 : NetState := ⟨true, [], ["t0"], ["eth0"], []⟩

/-- Witness for C7: on a concrete running object with one device, the
second shutdown performs nothing and `eth0` is closed exactly once across
both calls. -/
theorem shutdown_idempotent_witness :
    (shutdown (shutdown netC7).1).2 = [] ∧
    ((shutdown netC7).2 ++ (shutdown (shutdown netC7).1).2).count
      (Event.close "eth0") = 1 :=
  ⟨(shutdown_idempotent netC7 rfl (by decide)).2.1,
   (shutdown_idempotent netC7 rfl (by decide)).2.2 "eth0" (by decide)⟩

/-- C8: a completed `shutdown` on a running object emits exactly, in
order: the flag flip, then one join per capture worker thread, then one
close per pcap device handle — so every join precedes every close; and no
capture worker ever emits a close event for any device (its exit actions
are only the statistics retrieval), so no handle is closed by a worker
before or after its join. -/
theorem shutdown_ordering (s : NetState) (h : s.running = true) :
    shutdown s = ({ s with running := false },
      Event.setRunningFalse ::
        (s.threads.map Event.join ++ s.pcaps.map Event.close)) ∧
    ∀ (dlt : Dlt) (dev : String) (sched : List (Bool × Option RawCapture))
      (d : String), Event.close d ∉ low_level_dispatch dlt dev sched :=
  ⟨shutdown_of_running s h,
   fun dlt dev sched d => close_not_in_dispatch dlt dev sched d⟩

/-- Concrete running state used by the C8 witness. -/
def netC8 : NetState := ⟨true, [], ["t0"], ["eth0"], []⟩

/-- Witness for C8: the concrete shutdown trace is flag flip, join, close
in that order, and a concrete worker schedule contains no close event. -/
theorem shutdown_ordering_witness :
    shutdown netC8 = ((⟨false, [], ["t0"], ["eth0"], []⟩ : NetState),
      [Event.setRunningFalse, Event.join "t0", Event.close "eth0"]) ∧
    Event.close "eth0" ∉
      low_level_dispatch Dlt.DLT_EN10MB "eth0" [(true, none), (false, none)] :=
  ⟨(shutdown_ordering netC8 rfl).1,
   (shutdown_ordering netC8 rfl).2 Dlt.DLT_EN10MB "eth0"
     [(true, none), (false, none)] "eth0"⟩

/-- C10: when a SIGINT has already set the running flag to false, the
first explicit `shutdown` call finds the flag false and returns at once —
it changes nothing and emits no event, so no worker thread is joined and no
device handle is closed by shutdown in that execution. -/
theorem shutdown_noop_after_signal (s : NetState) (_h : s.running = true) :
    (sig_handler Signal.SIGINT s).running = false ∧
    shutdown (sig_handler Signal.SIGINT s) = (sig_handler Signal.SIGINT s, []) :=
  ⟨sig_handler_sigint_running s,
   shutdown_of_not_running _ (sig_handler_sigint_running s)⟩

/-- Concrete running state used by the C10 witness. -/
def netC10 : NetState := ⟨true, [], ["t1"], ["eth1"], []⟩

/-- Witness for C10: the concrete state after SIGINT has a false flag and
its shutdown is an eventless no-op. -/
theorem shutdown_noop_after_signal_witness :
    (sig_handler Signal.SIGINT netC10).running = false ∧
    shutdown (sig_handler Signal.SIGINT netC10) =
      (sig_handler Signal.SIGINT netC10, []) :=
  shutdown_noop_after_signal netC10 rfl

end Switchyard
